import Mathlib

/-!
Verification development for `src/scripts/install_cloudinit.py` of the
`bsd-images` repository.

The script builds a cloud-init-enabled disk image from a "nuage" base image:
it fetches/decompresses the base image, selects a qemu guest profile by
`system_label`, builds a `seed.img` configuration ISO, resizes the boot disk,
drives the guest through a two-phase boot with a fixed remote install script,
and finally copies the result plus a sha256 sidecar to the cloud location.

The embedding is a shallow one: every external collaborator
(filesystem existence checks, `download`, `decompress_file`, `run_local`,
the qemu `Guest` wrapper methods, the remote `run`) is modelled as a field of
an `Env` record giving the value that collaborator returns, and each function
of the script is translated into a Lean function returning the Python result
together with the ordered trace of observable effects (an `Event` list),
including every `log.error` / `log.info` call with its exact message.
-/

set_option maxHeartbeats 1000000

namespace BsdImages

/-- POSIX `errno.EINVAL` (the value of `errno.EINVAL` on the platforms the
script targets). -/
def EINVAL : Int := 22

/-- The `.nuage` section of one image configuration entry.  Every field is
read with `dict.get`, hence optional at the type level; `decompressed_path`
is `none` when the key is absent or falsy (the script tests it with a
truthiness check). -/
structure NuageConf where
  path : Option String
  url : Option String
  metadata_path : Option String
  userdata_path : Option String
  decompressed_path : Option String
  deriving DecidableEq, Repr

/-- The `.cloud` section of one image configuration entry. -/
structure CloudConf where
  path : Option String
  deriving DecidableEq, Repr

/-- One image configuration entry (the `image` dict passed to
`cloudimage_from_nuageimage`).  `nuage`/`cloud` are `none` when the
corresponding sub-dict is absent or empty (the script tests them with
`if not (... := image.get(key, {}))`); `system_label` is `none` exactly when
the key is absent or `None` (the script tests `is None`). -/
structure ImageConf where
  nuage : Option NuageConf
  cloud : Option CloudConf
  system_label : Option String
  deriving DecidableEq, Repr

/-- One entry of the `qemu.guests` configuration mapping. -/
structure GuestConf where
  system_label : Option String
  deriving DecidableEq, Repr

/-- The guest handle created by `Guest(cijoe, cijoe.config, guest_name)`:
its working directory (`guest.guest_path`) and its primary boot disk
(`guest.boot_img`). -/
structure GuestH where
  guest_path : String
  boot_img : String
  deriving DecidableEq, Repr

/-- Result of running a Python function in the embedding: either a returned
value (`ok code`, with the script's `None` return on the success path of
`install_cloudinit` modelled as `ok 0`, since its only caller tests it for
truthiness) or an uncaught exception such as `Path(None)` raising
`TypeError`. -/
inductive PyResult where
  | ok (code : Int)
  | exc (name : String)
  deriving DecidableEq, Repr

/-- Observable effects of the script, in program order. -/
inductive Event where
  | logInfo (msg : String)
  | logError (msg : String)
  | mkdirParent (ofPath : String)
  | download (url : Option String) (dest : String)
  | decompress (src : String) (dest : String)
  | runLocal (cmd : String)
  | guestKill
  | guestCreate (name : String)
  | guestInit (path : String)
  | guestStart (daemonize : Bool) (extraArgs : List String)
  | waitForTermination (timeout : Nat)
  | isUp (timeout : Nat)
  | runRemote (cmd : String) (transport : String)
  deriving DecidableEq, Repr

/-- `f"{opt}"` for an optional string: Python formats `None` as `"None"`. -/
def optStr : Option String → String
  | none => "None"
  | some s => s

/-- Behaviour of the external collaborators consumed by the script.

* `pathExists p` — `Path(p).exists()`.
* `downloadRes url dest` — the error returned by `download(url, dest)`.
* `decompressRes src dest` — the error returned by `decompress_file(src, dest)`.
* `resolve p` — `Path(p).resolve()`.
* `runLocalRes cmd` — the error returned by `cijoe.run_local(cmd)`.
* `guests` — the ordered mapping `cijoe.getconf("qemu.guests", {})`.
* `guestPathOf n` / `bootImgOf n` — `guest_path` and `boot_img` of the guest
  handle built for guest name `n`.
* `freebsd_transport` — `cijoe.getconf("cijoe.transport.default_freebsd")`,
  `none` when the key is absent or its value falsy (the script tests
  `if not freebsd_transport`).
* `startRes d args` — the error returned by `guest.start` with daemonize
  flag `d` and extra args `args`.
* `waitTermRes i` — the boolean returned by the `i`-th call (0-based, in
  program order) to `guest.wait_for_termination(timeout=60)`.
* `isUpRes` — the boolean returned by `guest.is_up(timeout=60)`.
* `runRes cmd` — the error returned by `cijoe.run(cmd, transport_name=...)`. -/
structure Env where
  pathExists : String → Bool
  downloadRes : Option String → String → Int
  decompressRes : String → String → Int
  resolve : String → String
  runLocalRes : String → Int
  guests : List (String × GuestConf)
  guestPathOf : String → String
  bootImgOf : String → String
  freebsd_transport : Option String
  startRes : Bool → List String → Int
  waitTermRes : Nat → Bool
  isUpRes : Bool
  runRes : String → Int

/-- `guest.guest_path / "meta-data"`. -/
def guestMetaPath (gp : String) : String := gp ++ "/meta-data"

/-- `guest.guest_path / "user-data"`. -/
def guestUserPath (gp : String) : String := gp ++ "/user-data"

/-- `guest.guest_path / "seed.img"`. -/
def seedImgPath (gp : String) : String := gp ++ "/seed.img"

/-- `f"cp {src} {dst}"`. -/
def cpCmd (src dst : String) : String := "cp " ++ src ++ " " ++ dst

/-- The `" ".join([...])` mkisofs command of the script (user-data file
first, then meta-data file, volume id `cidata`, Joliet + Rock Ridge). -/
def mkisofsCmd (seed gud gmd : String) : String :=
  "mkisofs -output " ++ seed ++ " -volid cidata -joliet -rock " ++ gud ++ " " ++ gmd

/-- `f"qemu-img info {img}"`. -/
def qemuInfoCmd (img : String) : String := "qemu-img info " ++ img

/-- `f"qemu-img resize {img} 12G"`. -/
def qemuResizeCmd (img : String) : String := "qemu-img resize " ++ img ++ " 12G"

/-- `f"sha256sum {p} > {p}.sha256"`. -/
def shaCmd (p : String) : String := "sha256sum " ++ p ++ " > " ++ p ++ ".sha256"

/-- The fixed three-command install script run over the `default_freebsd`
transport (source lines 192-196). -/
def installCmds : List String :=
  ["su -m root -c \x27pkg install -y $(pkg search -q cloud-init | head -n1)\x27",
   "su -m root -c \x27sysrc cloudinit_enable=YES\x27",
   "su -m root -c \x27poweroff\x27"]

/-- The `for cmd in cmds:` loop of `install_cloudinit` (source lines
197-202): run each command over the `default_freebsd` transport in order;
on the first non-zero error, log it, force-kill the guest and return the
error. Returns 0 when all commands succeed. -/
def runCmds (env : Env) : List String → Int × List Event
  | [] => (0, [])
  | c :: rest =>
    let err := env.runRes c
    if err ≠ 0 then
      (err, [Event.runRemote c "default_freebsd",
             Event.logError ("Error running cmd(" ++ c ++ "): " ++ toString err),
             Event.guestKill])
    else
      let r := runCmds env rest
      (r.1, Event.runRemote c "default_freebsd" :: r.2)

/-- Shallow embedding of `install_cloudinit(cijoe, guest, system_args)`
(source lines 166-206). The success path of the Python function falls off
the end and returns `None`; since the caller only tests the result for
truthiness, this is modelled as `0`. The second `guest.start` call passes
no `daemonize` argument; the qemu wrapper's default is daemonized mode
(spec section 4.5, InstallBoot), so it is recorded with flag `true`. -/
def install_cloudinit (env : Env) (guest : GuestH) (system_args : List String) :
    Int × List Event :=
  let l0 := [Event.logInfo "initialization_tool is nuage-init, installing cloud-init"]
  match env.freebsd_transport with
  | none =>
    (1, l0 ++ [Event.logError "Default username and password for FreeBSD nuage-init not defined in config. It is probably freebsd:freebsd."])
  | some _ =>
    let args1 := system_args ++ ["-no-reboot"]
    let err1 := env.startRes false args1
    let e1 := l0 ++ [Event.guestStart false args1]
    if err1 ≠ 0 then
      (err1, e1 ++ [Event.logError "Failure starting guest with nuage-init"])
    else
      let e2 := e1 ++ [Event.waitForTermination 60]
      if env.waitTermRes 0 then
        let err2 := env.startRes true system_args
        let e3 := e2 ++ [Event.guestStart true system_args]
        if err2 ≠ 0 then
          (err2, e3 ++ [Event.logError "Failure starting guest to install cloud-init"])
        else
          let e4 := e3 ++ [Event.isUp 60]
          if env.isUpRes then
            let r := runCmds env installCmds
            if r.1 ≠ 0 then
              (r.1, e4 ++ r.2)
            else
              let e5 := e4 ++ r.2 ++ [Event.waitForTermination 60]
              if env.waitTermRes 1 then
                (0, e5)
              else
                (1, e5 ++ [Event.logError "Guest was not terminated after 60 seconds"])
          else
            (1, e4 ++ [Event.logError "Guest is not up after 60 seconds"])
      else
        (1, e2 ++ [Event.logError "Guest was not terminated after 60 seconds"])

/-- The fetch part of `cloudimage_from_nuageimage` (source lines 52-72):
download the nuage image if its cache path is absent, then - when a
decompressed path is configured - decompress if that resolved path is
absent and redirect `nuage_image_path` to it.  Returns
`(error, final image path, trace)`. -/
def fetchImage (env : Env) (nuage : NuageConf) (path : String) :
    Int × String × List Event :=
  let dl : Int × List Event :=
    if env.pathExists path then (0, [])
    else
      let err := env.downloadRes nuage.url path
      let e := [Event.mkdirParent path, Event.download nuage.url path]
      if err ≠ 0 then
        (err, e ++ [Event.logError ("download(" ++ optStr nuage.url ++ "), " ++ path ++ ": failed")])
      else (0, e)
  if dl.1 ≠ 0 then (dl.1, path, dl.2)
  else
    match nuage.decompressed_path with
    | none => (0, path, dl.2)
    | some dp =>
      let rdp := env.resolve dp
      if env.pathExists rdp then (0, rdp, dl.2)
      else
        let err2 := env.decompressRes path rdp
        let e2 := dl.2 ++ [Event.mkdirParent rdp, Event.decompress path rdp]
        if err2 ≠ 0 then
          (err2, path, e2 ++ [Event.logError ("decompress_file(" ++ path ++ ", " ++ rdp ++ "): failed")])
        else (0, rdp, e2)

/-- Outcome of the guest selection loop (source lines 79-92). -/
inductive SelectResult where
  | found (name : String)
  | unlabeled (name : String)
  | noMatch
  deriving DecidableEq, Repr

/-- The guest selection loop of `cloudimage_from_nuageimage` (source lines
79-92): iterate the ordered `qemu.guests` mapping; a guest without a
`system_label` aborts the loop at once (`return errno.EINVAL`); otherwise
the first guest whose label equals the target label is chosen (`break`);
falling off the loop with no match is the `noMatch` outcome. -/
def selectGuest : List (String × GuestConf) → Option String → SelectResult
  | [], _ => .noMatch
  | (name, g) :: rest, label =>
    match g.system_label with
    | none => .unlabeled name
    | some l => if some l = label then .found name else selectGuest rest label

/-- The events emitted by the provisioning part (source lines 94-134)
up to and including the second `qemu-img info` call, on the path where
mkisofs and the resize succeed.  Note that the errors captured from the two
payload `cp` commands are never tested by the script. -/
def provisionHead (env : Env) (name ip md ud : String) : List Event :=
  [Event.guestKill,
   Event.guestCreate name,
   Event.guestInit ip,
   Event.runLocal (cpCmd md (guestMetaPath (env.guestPathOf name))),
   Event.runLocal (cpCmd ud (guestUserPath (env.guestPathOf name))),
   Event.runLocal (mkisofsCmd (seedImgPath (env.guestPathOf name))
     (guestUserPath (env.guestPathOf name)) (guestMetaPath (env.guestPathOf name))),
   Event.runLocal (qemuInfoCmd (env.bootImgOf name)),
   Event.runLocal (qemuResizeCmd (env.bootImgOf name)),
   Event.runLocal (qemuInfoCmd (env.bootImgOf name))]

/-- Shallow embedding of the provisioning part of
`cloudimage_from_nuageimage` (source lines 94-144): create the guest handle,
force-kill it, initialize it with the (fetched) nuage image, copy the two
payload files (errors captured but never checked by the script), build
`seed.img` with mkisofs, resize the boot image to 12G, and run
`install_cloudinit` with `["-cdrom", seed_img]`. -/
def provisionStage (env : Env) (name ip md ud : String) : Int × List Event :=
  let gp := env.guestPathOf name
  let boot := env.bootImgOf name
  let gmd := guestMetaPath gp
  let gud := guestUserPath gp
  let seed := seedImgPath gp
  let pre := [Event.guestKill, Event.guestCreate name, Event.guestInit ip,
              Event.runLocal (cpCmd md gmd), Event.runLocal (cpCmd ud gud)]
  let isoCmd := mkisofsCmd seed gud gmd
  let errIso := env.runLocalRes isoCmd
  let e1 := pre ++ [Event.runLocal isoCmd]
  if errIso ≠ 0 then
    (errIso, e1 ++ [Event.logError ("Failed creating " ++ seed)])
  else
    let e2 := e1 ++ [Event.runLocal (qemuInfoCmd boot)]
    let errRe := env.runLocalRes (qemuResizeCmd boot)
    let e3 := e2 ++ [Event.runLocal (qemuResizeCmd boot)]
    if errRe ≠ 0 then
      (errRe, e3 ++ [Event.logError "Failed resizing .qcow image"])
    else
      let e4 := e3 ++ [Event.runLocal (qemuInfoCmd boot)]
      let r := install_cloudinit env ⟨gp, boot⟩ ["-cdrom", seed]
      if r.1 ≠ 0 then
        (r.1, e4 ++ r.2 ++ [Event.logError "Could not install cloud-init"])
      else
        (0, e4 ++ r.2)

/-- Shallow embedding of the finalize part of `cloudimage_from_nuageimage`
(source lines 146-163): read `cloud.path` (a missing key makes
`Path(cloud.get("path"))` raise `TypeError`), create its parent directories,
copy the boot image there, compute the sha256 sidecar, then list and print
the artifacts.  Returns the Python result and the trace. -/
def finalizeStage (env : Env) (cloud : CloudConf) (bootImg : String) :
    PyResult × List Event :=
  match cloud.path with
  | none => (.exc "TypeError", [])
  | some cp =>
    let copy := cpCmd bootImg cp
    let e1 := [Event.mkdirParent cp, Event.runLocal copy]
    let err := env.runLocalRes copy
    if err ≠ 0 then
      (.ok err, e1 ++ [Event.logError ("Failed copying to " ++ cp)])
    else
      let e2 := e1 ++ [Event.runLocal (shaCmd cp)]
      let err2 := env.runLocalRes (shaCmd cp)
      if err2 ≠ 0 then
        (.ok err2, e2 ++ [Event.logError ("Failed computing sha256 sum of cloud_path(" ++ cp ++ ")")])
      else
        (.ok 0, e2 ++ [Event.runLocal ("ls -la " ++ cp),
                       Event.runLocal ("cat " ++ cp ++ ".sha256")])

/-- Shallow embedding of `cloudimage_from_nuageimage(cijoe, image)` (source
lines 34-163).  Mirrors the script line by line:

* missing/empty `.nuage` or `.cloud` sections return `errno.EINVAL`;
* `Path(nuage.get("path"))`, `Path(nuage.get("metadata_path"))` and
  `Path(nuage.get("userdata_path"))` raise `TypeError` when the key is
  absent (`Path(None)`);
* a missing `.system_label` is logged but execution falls through (`pass`)
  into the guest selection loop with label `None`;
* the fetch, selection, provisioning and finalize parts are the functions
  above, with their traces concatenated in program order. -/
def cloudimage_from_nuageimage (env : Env) (image : ImageConf) :
    PyResult × List Event :=
  match image.nuage with
  | none => (.ok EINVAL, [Event.logError "missing .nuage entry in configuration file"])
  | some nuage =>
    match nuage.path with
    | none => (.exc "TypeError", [])
    | some nuage_image_path =>
      match nuage.metadata_path with
      | none => (.exc "TypeError", [])
      | some nuage_image_metadata_path =>
        match nuage.userdata_path with
        | none => (.exc "TypeError", [])
        | some nuage_image_userdata_path =>
          match image.cloud with
          | none => (.ok EINVAL, [Event.logError "missing .cloud entry in configuration file"])
          | some cloud =>
            let f := fetchImage env nuage nuage_image_path
            if f.1 ≠ 0 then (.ok f.1, f.2.2)
            else
              let lblTr :=
                if image.system_label = none then
                  [Event.logError "missing .system_label entry in configuration file"]
                else []
              match selectGuest env.guests image.system_label with
              | .unlabeled n =>
                (.ok EINVAL, f.2.2 ++ lblTr ++
                  [Event.logError ("guest_name(" ++ n ++ ") is missing \x27system_label\x27")])
              | .noMatch =>
                (.ok EINVAL, f.2.2 ++ lblTr ++
                  [Event.logError "Could not find a guest to use for cloudimage creation"])
              | .found guest_name =>
                let p := provisionStage env guest_name f.2.1
                  nuage_image_metadata_path nuage_image_userdata_path
                if p.1 ≠ 0 then (.ok p.1, f.2.2 ++ lblTr ++ p.2)
                else
                  let fin := finalizeStage env cloud (env.bootImgOf guest_name)
                  (fin.1, f.2.2 ++ lblTr ++ p.2 ++ fin.2)

/-- Fetch-stage events: the only event kinds the fetch part can emit. -/
def Event.isFetch : Event → Bool
  | .mkdirParent _ => true
  | .download _ _ => true
  | .decompress _ _ => true
  | .logError _ => true
  | _ => false

/-- Is this event a guest force-kill? -/
def Event.isKill : Event → Bool
  | .guestKill => true
  | _ => false

/-- Is this event a remote (install-script) command execution? -/
def Event.isRemote : Event → Bool
  | .runRemote _ _ => true
  | _ => false

/-- The events emitted by `install_cloudinit` up to and including the
readiness poll, on the path that reaches the install-script loop. -/
def installHead (sys : List String) : List Event :=
  [Event.logInfo "initialization_tool is nuage-init, installing cloud-init",
   Event.guestStart false (sys ++ ["-no-reboot"]),
   Event.waitForTermination 60,
   Event.guestStart true sys,
   Event.isUp 60]

/-! ### Concrete sample configurations, used by witnesses -/

/-- A one-entry `qemu.guests` mapping with a correctly labeled guest. -/
def sampleGuests : List (String × GuestConf) := [("fbsd14", ⟨some "freebsd14"⟩)]

/-- A fully healthy environment: every path exists, every collaborator
succeeds, the guest terminates and comes up in time. -/
def sampleEnv : Env :=
  { pathExists := fun _ => true
    downloadRes := fun _ _ => 0
    decompressRes := fun _ _ => 0
    resolve := fun s => s
    runLocalRes := fun _ => 0
    guests := sampleGuests
    guestPathOf := fun n => "/guests/" ++ n
    bootImgOf := fun n => "/guests/" ++ n ++ "/boot.img"
    freebsd_transport := some "default_freebsd"
    startRes := fun _ _ => 0
    waitTermRes := fun _ => true
    isUpRes := true
    runRes := fun _ => 0 }

/-- A complete `.nuage` section. -/
def sampleNuage : NuageConf :=
  { path := some "/cache/base.qcow2"
    url := some "https://example.org/base.qcow2"
    metadata_path := some "/conf/meta-data"
    userdata_path := some "/conf/user-data"
    decompressed_path := none }

/-- A complete image configuration entry matching `sampleGuests`. -/
def sampleImage : ImageConf :=
  { nuage := some sampleNuage
    cloud := some { path := some "/out/cloud.qcow2" }
    system_label := some "freebsd14" }

/-! ### Further concrete configurations used by individual claims -/

/-- A profile set whose first entry matches the target label `L` and whose
second entry lacks a `system_label`. -/
def guestsC1 : List (String × GuestConf) := [("g1", ⟨some "L"⟩), ("g2", ⟨none⟩)]

/-- `sampleEnv` with the `guestsC1` profile set. -/
def envC1 : Env := { sampleEnv with guests := guestsC1 }

/-- `sampleImage` targeting label `L`. -/
def imageC1 : ImageConf := { sampleImage with system_label := some "L" }

/-- An image whose `.nuage` section is present but lacks the `path` key. -/
def imageC6 : ImageConf :=
  { nuage := some { sampleNuage with path := none }
    cloud := some { path := some "/out/cloud.qcow2" }
    system_label := some "freebsd14" }

/-- An image whose `.cloud` section is present but lacks the `path` key. -/
def imageC6d : ImageConf :=
  { nuage := some sampleNuage
    cloud := some { path := none }
    system_label := some "freebsd14" }

/-- `sampleImage` without the `.system_label` key. -/
def imageC7 : ImageConf := { sampleImage with system_label := none }

/-- `sampleEnv` where the copy of the metadata payload into the guest
directory fails with error 1, everything else succeeding. -/
def envC8 : Env :=
  { sampleEnv with runLocalRes := fun cmd =>
      if cmd = cpCmd "/conf/meta-data" "/guests/fbsd14/meta-data" then 1 else 0 }

/-- `sampleEnv` without a `cijoe.transport.default_freebsd` entry. -/
def envC10 : Env := { sampleEnv with freebsd_transport := none }

/-- `sampleEnv` where the second install-script command fails with error 7,
everything else succeeding. -/
def envC2 : Env :=
  { sampleEnv with runRes := fun c =>
      if c = "su -m root -c \x27sysrc cloudinit_enable=YES\x27" then 7 else 0 }

/-- `sampleEnv` where the guest never reports "up". -/
def envC5 : Env := { sampleEnv with isUpRes := false }

/-- The full trace of a successful run of the pipeline on `sampleEnv` and
`sampleImage` (cache already populated, so the fetch part is empty). -/
def sampleSuccessTrace : List Event :=
  [Event.guestKill,
   Event.guestCreate "fbsd14",
   Event.guestInit "/cache/base.qcow2",
   Event.runLocal "cp /conf/meta-data /guests/fbsd14/meta-data",
   Event.runLocal "cp /conf/user-data /guests/fbsd14/user-data",
   Event.runLocal "mkisofs -output /guests/fbsd14/seed.img -volid cidata -joliet -rock /guests/fbsd14/user-data /guests/fbsd14/meta-data",
   Event.runLocal "qemu-img info /guests/fbsd14/boot.img",
   Event.runLocal "qemu-img resize /guests/fbsd14/boot.img 12G",
   Event.runLocal "qemu-img info /guests/fbsd14/boot.img",
   Event.logInfo "initialization_tool is nuage-init, installing cloud-init",
   Event.guestStart false ["-cdrom", "/guests/fbsd14/seed.img", "-no-reboot"],
   Event.waitForTermination 60,
   Event.guestStart true ["-cdrom", "/guests/fbsd14/seed.img"],
   Event.isUp 60,
   Event.runRemote "su -m root -c \x27pkg install -y $(pkg search -q cloud-init | head -n1)\x27" "default_freebsd",
   Event.runRemote "su -m root -c \x27sysrc cloudinit_enable=YES\x27" "default_freebsd",
   Event.runRemote "su -m root -c \x27poweroff\x27" "default_freebsd",
   Event.waitForTermination 60,
   Event.mkdirParent "/out/cloud.qcow2",
   Event.runLocal "cp /guests/fbsd14/boot.img /out/cloud.qcow2",
   Event.runLocal "sha256sum /out/cloud.qcow2 > /out/cloud.qcow2.sha256",
   Event.runLocal "ls -la /out/cloud.qcow2",
   Event.runLocal "cat /out/cloud.qcow2.sha256"]

/-! ### Helper lemmas about the loops -/

/-- When every command of the install script succeeds, the loop returns 0
and runs each command exactly once, in order. -/
theorem runCmds_all_ok (env : Env) (cmds : List String)
    (h : ∀ c ∈ cmds, env.runRes c = 0) :
    runCmds env cmds = (0, cmds.map (fun c => Event.runRemote c "default_freebsd")) := by
  induction cmds with
  | nil => rfl
  | cons c rest ih =>
    have hc : env.runRes c = 0 := h c (by simp)
    simp [runCmds, hc, ih (fun d hd => h d (by simp [hd]))]

/-- When the commands before `c` succeed and `c` fails, the loop runs the
earlier commands, runs `c`, logs the failure, force-kills the guest once and
returns the failing error; the commands after `c` are never issued. -/
theorem runCmds_first_fail (env : Env) (pre post : List String) (c : String)
    (hpre : ∀ d ∈ pre, env.runRes d = 0) (hc : env.runRes c ≠ 0) :
    runCmds env (pre ++ c :: post) =
      (env.runRes c,
       pre.map (fun d => Event.runRemote d "default_freebsd") ++
         [Event.runRemote c "default_freebsd",
          Event.logError ("Error running cmd(" ++ c ++ "): " ++ toString (env.runRes c)),
          Event.guestKill]) := by
  induction pre with
  | nil => simp [runCmds, hc]
  | cons d rest ih =>
    have hd : env.runRes d = 0 := hpre d (by simp)
    simp [runCmds, hd, ih (fun e he => hpre e (by simp [he]))]

/-- Inversion: a zero result of the command loop means every command was run
in order (and none failed). -/
theorem runCmds_eq_zero (env : Env) (cmds : List String) :
    ∀ tr : List Event, runCmds env cmds = (0, tr) →
      tr = cmds.map (fun c => Event.runRemote c "default_freebsd") := by
  induction cmds with
  | nil => intro tr h; simpa [runCmds] using (congrArg Prod.snd h).symm
  | cons c rest ih =>
    intro tr h
    by_cases hc : env.runRes c = 0
    · simp only [runCmds, hc] at h
      simp only [ne_eq, not_true_eq_false, if_neg, if_false] at h
      · rcases h with h
        have h1 : (runCmds env rest).1 = 0 := by
          have := congrArg Prod.fst h; simpa using this
        have h2 : tr = Event.runRemote c "default_freebsd" :: (runCmds env rest).2 := by
          have := congrArg Prod.snd h; simpa using this.symm
        have := ih (runCmds env rest).2 (by rw [← h1])
        simp [h2, this]
    · simp only [runCmds, if_pos hc] at h
      exact absurd ((congrArg Prod.fst h).symm.trans rfl).symm (by simpa using hc)

/-- A mapped list of remote-command events contains no force-kill event. -/
theorem filter_kill_map_runRemote (l : List String) :
    (l.map (fun d => Event.runRemote d "default_freebsd")).filter Event.isKill = [] := by
  induction l with
  | nil => rfl
  | cons d rest ih => simp [Event.isKill, ih]

/-- A mapped list of remote-command events consists only of remote-command
events. -/
theorem filter_remote_map_runRemote (l : List String) :
    (l.map (fun d => Event.runRemote d "default_freebsd")).filter Event.isRemote =
      l.map (fun d => Event.runRemote d "default_freebsd") := by
  induction l with
  | nil => rfl
  | cons d rest ih => simp [Event.isRemote, ih]

/-- Guest selection with a missing target label can never return a match:
every examined guest either lacks a label (aborting the loop) or has a
`some`-label, which is never equal to Python `None`. -/
theorem selectGuest_none_ne_found (gs : List (String × GuestConf)) (n : String) :
    selectGuest gs none ≠ .found n := by
  induction gs with
  | nil => simp [selectGuest]
  | cons q rest ih =>
    rcases q with ⟨nm, g⟩
    rcases hg : g.system_label with _ | l
    · simp [selectGuest, hg]
    · simpa [selectGuest, hg] using ih

/-- The fetch part emits only fetch-stage events (directory creation,
download, decompression, error logs). -/
theorem fetchImage_isFetch (env : Env) (nc : NuageConf) (p : String) :
    ∀ e ∈ (fetchImage env nc p).2.2, e.isFetch = true := by
  intro e he
  unfold fetchImage at he
  rcases hd : nc.decompressed_path with _ | d <;> rw [hd] at he
  · by_cases h1 : env.pathExists p = true <;>
      by_cases h2 : env.downloadRes nc.url p = 0 <;>
      simp_all [Event.isFetch] <;>
      casesm* _ ∨ _ <;> simp_all [Event.isFetch]
  · by_cases h1 : env.pathExists p = true <;>
      by_cases h2 : env.downloadRes nc.url p = 0 <;>
      by_cases h3 : env.pathExists (env.resolve d) = true <;>
      by_cases h4 : env.decompressRes p (env.resolve d) = 0 <;>
      simp_all [Event.isFetch] <;>
      casesm* _ ∨ _ <;> simp_all [Event.isFetch]

/-- When the transport is configured, both starts succeed, the first
termination wait succeeds and the guest comes up, `install_cloudinit`
reaches the install-script loop having emitted exactly `installHead`, and
its outcome is decided by the loop and the final termination wait. -/
theorem install_reach_cmds (env : Env) (g : GuestH) (sys : List String) (t : String)
    (ht : env.freebsd_transport = some t)
    (h1 : env.startRes false (sys ++ ["-no-reboot"]) = 0)
    (h2 : env.waitTermRes 0 = true)
    (h3 : env.startRes true sys = 0)
    (h4 : env.isUpRes = true) :
    install_cloudinit env g sys =
      (if (runCmds env installCmds).1 ≠ 0 then
        ((runCmds env installCmds).1, installHead sys ++ (runCmds env installCmds).2)
       else if env.waitTermRes 1 then
        (0, installHead sys ++ (runCmds env installCmds).2 ++ [Event.waitForTermination 60])
       else
        (1, installHead sys ++ (runCmds env installCmds).2 ++
          [Event.waitForTermination 60,
           Event.logError "Guest was not terminated after 60 seconds"])) := by
  simp only [install_cloudinit, ht, h1, h2, h3, h4, installHead]
  simp

/-- Inversion: a zero result of `install_cloudinit` means the whole
two-phase boot and install script ran, in order, with the exact trace. -/
theorem install_ok_inv (env : Env) (g : GuestH) (sys : List String) (tr : List Event)
    (h : install_cloudinit env g sys = (0, tr)) :
    tr = installHead sys ++
      installCmds.map (fun c => Event.runRemote c "default_freebsd") ++
      [Event.waitForTermination 60] := by
  unfold install_cloudinit at h
  rcases hft : env.freebsd_transport with _ | t <;> rw [hft] at h
  · simp at h
  · simp only [] at h
    by_cases e1 : env.startRes false (sys ++ ["-no-reboot"]) ≠ 0
    · rw [if_pos e1] at h
      exact absurd (congrArg Prod.fst h) (by simpa using e1)
    · rw [if_neg e1] at h
      by_cases w0 : env.waitTermRes 0 = true
      · rw [if_pos w0] at h
        by_cases e2 : env.startRes true sys ≠ 0
        · rw [if_pos e2] at h
          exact absurd (congrArg Prod.fst h) (by simpa using e2)
        · rw [if_neg e2] at h
          by_cases up : env.isUpRes = true
          · rw [if_pos up] at h
            by_cases ec : (runCmds env installCmds).1 ≠ 0
            · rw [if_pos ec] at h
              exact absurd (congrArg Prod.fst h) (by simpa using ec)
            · rw [if_neg ec] at h
              have hc : (runCmds env installCmds).2 =
                  installCmds.map (fun c => Event.runRemote c "default_freebsd") := by
                refine runCmds_eq_zero env installCmds (runCmds env installCmds).2 ?_
                have : (runCmds env installCmds).1 = 0 := by simpa using ec
                rw [← this]
              by_cases w1 : env.waitTermRes 1 = true
              · rw [if_pos w1] at h
                have := congrArg Prod.snd h
                simp only [installHead] at *
                simp at this
                simp [← this, hc]
              · rw [if_neg w1] at h
                exact absurd (congrArg Prod.fst h) (by simp)
          · rw [if_neg up] at h
            exact absurd (congrArg Prod.fst h) (by simp)
      · rw [if_neg w0] at h
        exact absurd (congrArg Prod.fst h) (by simp)

/-- When mkisofs and the resize succeed, the provisioning part reaches
`install_cloudinit` having emitted exactly `provisionHead`, and its outcome
is decided by the install. -/
theorem provision_reach_install (env : Env) (name ip md ud : String)
    (hiso : env.runLocalRes (mkisofsCmd (seedImgPath (env.guestPathOf name))
      (guestUserPath (env.guestPathOf name)) (guestMetaPath (env.guestPathOf name))) = 0)
    (hres : env.runLocalRes (qemuResizeCmd (env.bootImgOf name)) = 0) :
    provisionStage env name ip md ud =
      (if (install_cloudinit env ⟨env.guestPathOf name, env.bootImgOf name⟩
            ["-cdrom", seedImgPath (env.guestPathOf name)]).1 ≠ 0 then
        ((install_cloudinit env ⟨env.guestPathOf name, env.bootImgOf name⟩
            ["-cdrom", seedImgPath (env.guestPathOf name)]).1,
         provisionHead env name ip md ud ++
           (install_cloudinit env ⟨env.guestPathOf name, env.bootImgOf name⟩
             ["-cdrom", seedImgPath (env.guestPathOf name)]).2 ++
           [Event.logError "Could not install cloud-init"])
       else
        (0, provisionHead env name ip md ud ++
           (install_cloudinit env ⟨env.guestPathOf name, env.bootImgOf name⟩
             ["-cdrom", seedImgPath (env.guestPathOf name)]).2)) := by
  simp only [provisionStage, hiso, hres, provisionHead]
  simp

/-- Inversion: a zero result of the provisioning part means mkisofs, the
resize and the install all succeeded, with the trace `provisionHead`
followed by the install trace. -/
theorem provision_ok_inv (env : Env) (name ip md ud : String) (tr : List Event)
    (h : provisionStage env name ip md ud = (0, tr)) :
    ∃ itr, install_cloudinit env ⟨env.guestPathOf name, env.bootImgOf name⟩
        ["-cdrom", seedImgPath (env.guestPathOf name)] = (0, itr) ∧
      tr = provisionHead env name ip md ud ++ itr := by
  unfold provisionStage at h
  simp only [] at h
  by_cases hiso : env.runLocalRes (mkisofsCmd (seedImgPath (env.guestPathOf name))
      (guestUserPath (env.guestPathOf name)) (guestMetaPath (env.guestPathOf name))) ≠ 0
  · rw [if_pos hiso] at h
    exact absurd (congrArg Prod.fst h) (by simpa using hiso)
  · rw [if_neg hiso] at h
    by_cases hres : env.runLocalRes (qemuResizeCmd (env.bootImgOf name)) ≠ 0
    · rw [if_pos hres] at h
      exact absurd (congrArg Prod.fst h) (by simpa using hres)
    · rw [if_neg hres] at h
      by_cases hins : (install_cloudinit env ⟨env.guestPathOf name, env.bootImgOf name⟩
          ["-cdrom", seedImgPath (env.guestPathOf name)]).1 ≠ 0
      · rw [if_pos hins] at h
        exact absurd (congrArg Prod.fst h) (by simpa using hins)
      · rw [if_neg hins] at h
        refine ⟨(install_cloudinit env ⟨env.guestPathOf name, env.bootImgOf name⟩
          ["-cdrom", seedImgPath (env.guestPathOf name)]).2, ?_, ?_⟩
        · have : (install_cloudinit env ⟨env.guestPathOf name, env.bootImgOf name⟩
              ["-cdrom", seedImgPath (env.guestPathOf name)]).1 = 0 := by simpa using hins
          rw [← this]
        · have := congrArg Prod.snd h
          simp only [provisionHead] at *
          simp at this
          simp [← this]

/-- Inversion: a `.ok 0` result of the finalize part means `cloud.path` was
present and both the copy and the checksum succeeded, with the exact
finalize trace. -/
theorem finalize_ok_inv (env : Env) (cc : CloudConf) (boot : String) (tr : List Event)
    (h : finalizeStage env cc boot = (.ok 0, tr)) :
    ∃ cp, cc.path = some cp ∧
      tr = [Event.mkdirParent cp, Event.runLocal (cpCmd boot cp),
            Event.runLocal (shaCmd cp), Event.runLocal ("ls -la " ++ cp),
            Event.runLocal ("cat " ++ cp ++ ".sha256")] := by
  unfold finalizeStage at h
  rcases hcp : cc.path with _ | cp <;> rw [hcp] at h
  · simp at h
  · simp only [] at h
    by_cases e1 : env.runLocalRes (cpCmd boot cp) ≠ 0
    · rw [if_pos e1] at h
      have := congrArg Prod.fst h
      simp [PyResult.ok.injEq] at this
      exact absurd this (by simpa using e1)
    · rw [if_neg e1] at h
      by_cases e2 : env.runLocalRes (shaCmd cp) ≠ 0
      · rw [if_pos e2] at h
        have := congrArg Prod.fst h
        simp [PyResult.ok.injEq] at this
        exact absurd this (by simpa using e2)
      · rw [if_neg e2] at h
        have := congrArg Prod.snd h
        simp at this
        exact ⟨cp, rfl, this.symm⟩

/-- When the required `.nuage` fields are present, the fetch succeeds and a
guest is found for the (present) target label, the pipeline reaches the
provisioning part with exactly the fetch trace emitted, and its outcome is
decided by provisioning and finalize. -/
theorem pipeline_reach_provision (env : Env) (nc : NuageConf) (cc : CloudConf)
    (lbl p md ud ip : String) (ftr : List Event) (name : String)
    (hp : nc.path = some p) (hmd : nc.metadata_path = some md)
    (hud : nc.userdata_path = some ud)
    (hf : fetchImage env nc p = (0, ip, ftr))
    (hsel : selectGuest env.guests (some lbl) = .found name) :
    cloudimage_from_nuageimage env ⟨some nc, some cc, some lbl⟩ =
      (if (provisionStage env name ip md ud).1 ≠ 0 then
        (.ok (provisionStage env name ip md ud).1,
         ftr ++ (provisionStage env name ip md ud).2)
       else
        ((finalizeStage env cc (env.bootImgOf name)).1,
         ftr ++ (provisionStage env name ip md ud).2 ++
           (finalizeStage env cc (env.bootImgOf name)).2)) := by
  simp only [cloudimage_from_nuageimage, hp, hmd, hud, hf, hsel]
  simp

/-! ### Claims -/

/-- C1, counterexample: the claim says that for every ordered profile
mapping with at least one entry lacking a `system_label`, resolution aborts
with the malformed-profile EINVAL error rather than returning any match.
This is false: in `guestsC1` the entry `g2` lacks a label, yet selection
returns the match `g1` (the loop `break`s on the first match before ever
examining `g2`), and the whole pipeline succeeds with exit code 0. -/
theorem C1_counterexample :
    selectGuest guestsC1 (some "L") = SelectResult.found "g1" ∧
    ("g2", (⟨none⟩ : GuestConf)) ∈ guestsC1 ∧
    (cloudimage_from_nuageimage envC1 imageC1).1 = PyResult.ok 0 := by
  refine ⟨rfl, ?_, rfl⟩
  simp [guestsC1]

/-- C1 (amended): resolution aborts with the malformed-profile error exactly
when an unlabeled entry occurs before the first matching entry: if every
profile before the unlabeled entry `n` is labeled and does not match the
target label, selection fails at `n` with the malformed-profile EINVAL
outcome - even when a correctly labeled matching entry exists later in the
set.  (An unlabeled entry placed after the first match is never examined,
per the counterexample.) -/
theorem C1_amended (pre post : List (String × GuestConf)) (n : String) (g : GuestConf)
    (label : Option String) (hg : g.system_label = none)
    (hpre : ∀ q ∈ pre, q.2.system_label ≠ none ∧ q.2.system_label ≠ label) :
    selectGuest (pre ++ (n, g) :: post) label = .unlabeled n := by
  induction pre with
  | nil => simp [selectGuest, hg]
  | cons q rest ih =>
    rcases q with ⟨nm, gq⟩
    rcases hq : gq.system_label with _ | l
    · exact absurd hq (hpre (nm, gq) (by simp)).1
    · have hne := (hpre (nm, gq) (by simp)).2
      rw [hq] at hne
      simpa [selectGuest, hq, hne] using ih (fun q hq2 => hpre q (by simp [hq2]))

/-- C1 witness: a set with a non-matching labeled entry, then an unlabeled
entry, then a valid matching entry: selection aborts at the unlabeled
entry even though a valid match exists later. -/
theorem C1_amended_witness :
    selectGuest [("a", { system_label := some "X" }), ("b", { system_label := none }),
                 ("c", { system_label := some "L" })] (some "L") = .unlabeled "b" :=
  C1_amended [("a", { system_label := some "X" })] [("c", { system_label := some "L" })]
    "b" { system_label := none } (some "L") rfl (by decide)

/-- C4: the state machine performs a two-phase boot: the first start is
non-daemonized with the seed volume attached (`-cdrom seed`) and the
`-no-reboot` flag, followed by a termination wait bounded at exactly 60
seconds; the second start is daemonized with the same seed volume attached,
followed by a readiness wait bounded at exactly 60 seconds; and the
post-install termination wait is also bounded at exactly 60 seconds. -/
theorem C4_two_phase_boot (env : Env) (g : GuestH) (seed t : String)
    (ht : env.freebsd_transport = some t)
    (h1 : env.startRes false (["-cdrom", seed] ++ ["-no-reboot"]) = 0)
    (h2 : env.waitTermRes 0 = true)
    (h3 : env.startRes true ["-cdrom", seed] = 0)
    (h4 : env.isUpRes = true)
    (h5 : ∀ c ∈ installCmds, env.runRes c = 0)
    (h6 : env.waitTermRes 1 = true) :
    install_cloudinit env g ["-cdrom", seed] =
      (0, [Event.logInfo "initialization_tool is nuage-init, installing cloud-init",
           Event.guestStart false ["-cdrom", seed, "-no-reboot"],
           Event.waitForTermination 60,
           Event.guestStart true ["-cdrom", seed],
           Event.isUp 60] ++
          installCmds.map (fun c => Event.runRemote c "default_freebsd") ++
          [Event.waitForTermination 60]) := by
  have hr := runCmds_all_ok env installCmds h5
  rw [install_reach_cmds env g ["-cdrom", seed] t ht h1 h2 h3 h4]
  simp [hr, h6, installHead]

/-- C4 witness: the two-phase boot trace on the healthy sample
environment. -/
theorem C4_witness :
    install_cloudinit sampleEnv ⟨"/guests/fbsd14", "/guests/fbsd14/boot.img"⟩
        ["-cdrom", "/guests/fbsd14/seed.img"] =
      (0, [Event.logInfo "initialization_tool is nuage-init, installing cloud-init",
           Event.guestStart false ["-cdrom", "/guests/fbsd14/seed.img", "-no-reboot"],
           Event.waitForTermination 60,
           Event.guestStart true ["-cdrom", "/guests/fbsd14/seed.img"],
           Event.isUp 60] ++
          installCmds.map (fun c => Event.runRemote c "default_freebsd") ++
          [Event.waitForTermination 60]) :=
  C4_two_phase_boot sampleEnv ⟨"/guests/fbsd14", "/guests/fbsd14/boot.img"⟩
    "/guests/fbsd14/seed.img" "default_freebsd" rfl rfl rfl rfl rfl (fun _ _ => rfl) rfl

/-- C6, counterexample: the claim says absence of the required source path
(`nuage.path`) is reported as a configuration error code (EINVAL), not a
runtime failure.  In fact the script evaluates `Path(nuage.get("path"))`,
and `Path(None)` raises an uncaught `TypeError`: on `imageC6` (a present
`.nuage` section with no `path` key) the result is an exception, not
`EINVAL`. -/
theorem C6_counterexample :
    (cloudimage_from_nuageimage sampleEnv imageC6).1 = PyResult.exc "TypeError" ∧
    (cloudimage_from_nuageimage sampleEnv imageC6).1 ≠ PyResult.ok EINVAL := by
  exact ⟨rfl, by decide⟩

/-- C6 (amended): absence of the whole `.nuage` or `.cloud` section is
reported as EINVAL, but absence of just the `path` key inside a present
section is an uncaught `TypeError` runtime failure - raised immediately for
`nuage.path`, and raised only at the finalize step (after the whole install
has already run, witnessed by the termination-wait event in the trace) for
`cloud.path`. -/
theorem C6_missing_path_behavior (env : Env) (nc : NuageConf) (cc : CloudConf)
    (sl : Option String) :
    (nc.path = none →
      cloudimage_from_nuageimage env ⟨some nc, some cc, sl⟩ = (.exc "TypeError", [])) ∧
    cloudimage_from_nuageimage env ⟨none, some cc, sl⟩ =
      (.ok EINVAL, [Event.logError "missing .nuage entry in configuration file"]) ∧
    (∀ p url md ud dp,
      cloudimage_from_nuageimage env ⟨some ⟨some p, url, some md, some ud, dp⟩, none, sl⟩ =
        (.ok EINVAL, [Event.logError "missing .cloud entry in configuration file"])) ∧
    (cloudimage_from_nuageimage sampleEnv imageC6d).1 = PyResult.exc "TypeError" ∧
    Event.waitForTermination 60 ∈ (cloudimage_from_nuageimage sampleEnv imageC6d).2 := by
  refine ⟨?_, rfl, ?_, rfl, ?_⟩
  · intro hp
    simp [cloudimage_from_nuageimage, hp]
  · intro p url md ud dp
    rfl
  · decide

/-- C6 witness: the first conjunct of the amended statement applied to a
concrete section lacking `path`. -/
theorem C6_witness :
    cloudimage_from_nuageimage sampleEnv
        ⟨some { sampleNuage with path := none },
         some { path := some "/out/cloud.qcow2" }, some "freebsd14"⟩ =
      (.exc "TypeError", []) :=
  (C6_missing_path_behavior sampleEnv { sampleNuage with path := none }
    { path := some "/out/cloud.qcow2" } (some "freebsd14")).1 rfl

/-- C7 (code behaviour at the failing input): the claim - and the script's
own `log.error` diagnostic - say a missing `.system_label` is a fatal
configuration error reported immediately.  But the `if` body is
`log.error(...); pass`: execution falls through into the guest selection
loop with label `None`, which then fails with the unrelated
"no matching guest" EINVAL.  The trace shows both log lines: the
missing-label error followed by the selection-failure error, proving the
pipeline continued past the label check. -/
theorem C7_label_check_no_abort :
    cloudimage_from_nuageimage sampleEnv imageC7 =
      (.ok EINVAL,
       [Event.logError "missing .system_label entry in configuration file",
        Event.logError "Could not find a guest to use for cloudimage creation"]) := by
  rfl

/-- C8 (code behaviour at the failing input): the claim says a failure of
the metadata payload copy is fatal before the seed volume is synthesized.
In fact the script captures `err` from both `cp` calls but never tests it:
with `envC8` the metadata copy fails with error 1, yet the pipeline still
synthesizes the seed volume with mkisofs and completes successfully with
exit code 0. -/
theorem C8_payload_copy_not_fatal :
    envC8.runLocalRes (cpCmd "/conf/meta-data" (guestMetaPath (envC8.guestPathOf "fbsd14"))) = 1 ∧
    (cloudimage_from_nuageimage envC8 sampleImage).1 = PyResult.ok 0 ∧
    Event.runLocal (mkisofsCmd (seedImgPath "/guests/fbsd14") (guestUserPath "/guests/fbsd14")
        (guestMetaPath "/guests/fbsd14")) ∈ (cloudimage_from_nuageimage envC8 sampleImage).2 := by
  refine ⟨rfl, rfl, ?_⟩
  decide

/-- C9: idempotent fetch.  When the cache path already exists, the Fetcher
performs no download (regardless of the source URL), creates no
directories and emits no events at all; when a decompressed path is
configured and its resolved path also exists, it additionally performs no
decompression and redirects downstream consumers to the resolved
decompressed path. -/
theorem C9_idempotent_fetch (env : Env) (nc : NuageConf) (p : String)
    (hp : env.pathExists p = true) :
    (nc.decompressed_path = none → fetchImage env nc p = (0, p, [])) ∧
    (∀ d, nc.decompressed_path = some d → env.pathExists (env.resolve d) = true →
      fetchImage env nc p = (0, env.resolve d, [])) := by
  constructor
  · intro hd
    simp [fetchImage, hp, hd]
  · intro d hd hrd
    simp [fetchImage, hp, hd, hrd]

/-- C9 witness: both conjuncts applied to the sample configuration with an
already-populated cache path (and, for the second, decompressed path). -/
theorem C9_witness :
    fetchImage sampleEnv sampleNuage "/cache/base.qcow2" = (0, "/cache/base.qcow2", []) ∧
    fetchImage sampleEnv { sampleNuage with decompressed_path := some "/cache/base.raw" }
        "/cache/base.qcow2" = (0, "/cache/base.raw", []) := by
  constructor
  · exact (C9_idempotent_fetch sampleEnv sampleNuage "/cache/base.qcow2" rfl).1 rfl
  · exact (C9_idempotent_fetch sampleEnv
      { sampleNuage with decompressed_path := some "/cache/base.raw" }
      "/cache/base.qcow2" rfl).2 "/cache/base.raw" rfl rfl

/-- C10: when `cijoe.transport.default_freebsd` resolves to an absent or
falsy value, `install_cloudinit` returns the non-zero error 1 before the
guest is ever started: the trace contains only the entry log line and the
error log line - no start, no wait, no remote command. -/
theorem C10_missing_transport (env : Env) (g : GuestH) (sys : List String)
    (h : env.freebsd_transport = none) :
    install_cloudinit env g sys =
      (1, [Event.logInfo "initialization_tool is nuage-init, installing cloud-init",
           Event.logError "Default username and password for FreeBSD nuage-init not defined in config. It is probably freebsd:freebsd."]) := by
  simp [install_cloudinit, h]

/-- C10 witness: the missing-transport abort on a concrete environment. -/
theorem C10_witness :
    install_cloudinit envC10 ⟨"/guests/fbsd14", "/guests/fbsd14/boot.img"⟩ [] =
      (1, [Event.logInfo "initialization_tool is nuage-init, installing cloud-init",
           Event.logError "Default username and password for FreeBSD nuage-init not defined in config. It is probably freebsd:freebsd."]) :=
  C10_missing_transport envC10 ⟨"/guests/fbsd14", "/guests/fbsd14/boot.img"⟩ [] rfl

/-- C2: install-failure cleanup.  For any run that reaches the install
script (hypotheses: fields present, fetch and selection succeed, mkisofs
and resize succeed, transport configured, both starts succeed, first
termination wait and readiness wait succeed) in which one of the three
remote commands `c` fails (all commands before it succeeding), the guest is
force-killed exactly once, no subsequent install-script command is issued
(the trace's remote-command events are exactly the commands up to and
including `c`), and the non-zero error is propagated so the pipeline aborts
right after the install - the full pipeline trace ends at the
install-failure log, with no finalize (copy/checksum) events. -/
theorem C2_install_failure_cleanup (env : Env) (nc : NuageConf) (cc : CloudConf)
    (lbl p md ud ip : String) (ftr : List Event) (name t : String)
    (pre post : List String) (c : String)
    (hp : nc.path = some p) (hmd : nc.metadata_path = some md)
    (hud : nc.userdata_path = some ud)
    (hf : fetchImage env nc p = (0, ip, ftr))
    (hsel : selectGuest env.guests (some lbl) = .found name)
    (hiso : env.runLocalRes (mkisofsCmd (seedImgPath (env.guestPathOf name))
      (guestUserPath (env.guestPathOf name)) (guestMetaPath (env.guestPathOf name))) = 0)
    (hres : env.runLocalRes (qemuResizeCmd (env.bootImgOf name)) = 0)
    (ht : env.freebsd_transport = some t)
    (h1 : env.startRes false (["-cdrom", seedImgPath (env.guestPathOf name)] ++ ["-no-reboot"]) = 0)
    (h2 : env.waitTermRes 0 = true)
    (h3 : env.startRes true ["-cdrom", seedImgPath (env.guestPathOf name)] = 0)
    (h4 : env.isUpRes = true)
    (hsplit : installCmds = pre ++ c :: post)
    (hpre : ∀ d ∈ pre, env.runRes d = 0)
    (hc : env.runRes c ≠ 0) :
    install_cloudinit env ⟨env.guestPathOf name, env.bootImgOf name⟩
        ["-cdrom", seedImgPath (env.guestPathOf name)] =
      (env.runRes c,
       installHead ["-cdrom", seedImgPath (env.guestPathOf name)] ++
         pre.map (fun d => Event.runRemote d "default_freebsd") ++
         [Event.runRemote c "default_freebsd",
          Event.logError ("Error running cmd(" ++ c ++ "): " ++ toString (env.runRes c)),
          Event.guestKill]) ∧
    (installHead ["-cdrom", seedImgPath (env.guestPathOf name)] ++
       pre.map (fun d => Event.runRemote d "default_freebsd") ++
       [Event.runRemote c "default_freebsd",
        Event.logError ("Error running cmd(" ++ c ++ "): " ++ toString (env.runRes c)),
        Event.guestKill]).filter Event.isKill = [Event.guestKill] ∧
    (installHead ["-cdrom", seedImgPath (env.guestPathOf name)] ++
       pre.map (fun d => Event.runRemote d "default_freebsd") ++
       [Event.runRemote c "default_freebsd",
        Event.logError ("Error running cmd(" ++ c ++ "): " ++ toString (env.runRes c)),
        Event.guestKill]).filter Event.isRemote =
      (pre ++ [c]).map (fun d => Event.runRemote d "default_freebsd") ∧
    cloudimage_from_nuageimage env ⟨some nc, some cc, some lbl⟩ =
      (.ok (env.runRes c),
       ftr ++ provisionHead env name ip md ud ++
         (installHead ["-cdrom", seedImgPath (env.guestPathOf name)] ++
            pre.map (fun d => Event.runRemote d "default_freebsd") ++
            [Event.runRemote c "default_freebsd",
             Event.logError ("Error running cmd(" ++ c ++ "): " ++ toString (env.runRes c)),
             Event.guestKill]) ++
         [Event.logError "Could not install cloud-init"]) := by
  have hrc := runCmds_first_fail env pre post c hpre hc
  have hinstall : install_cloudinit env ⟨env.guestPathOf name, env.bootImgOf name⟩
      ["-cdrom", seedImgPath (env.guestPathOf name)] =
      (env.runRes c,
       installHead ["-cdrom", seedImgPath (env.guestPathOf name)] ++
         pre.map (fun d => Event.runRemote d "default_freebsd") ++
         [Event.runRemote c "default_freebsd",
          Event.logError ("Error running cmd(" ++ c ++ "): " ++ toString (env.runRes c)),
          Event.guestKill]) := by
    rw [install_reach_cmds env ⟨env.guestPathOf name, env.bootImgOf name⟩
      ["-cdrom", seedImgPath (env.guestPathOf name)] t ht h1 h2 h3 h4, hsplit, hrc]
    simp [hc]
  refine ⟨hinstall, ?_, ?_, ?_⟩
  · simp [installHead, List.filter_append, filter_kill_map_runRemote, Event.isKill]
  · simp [installHead, List.filter_append, filter_remote_map_runRemote, Event.isRemote]
  · have hprov := provision_reach_install env name ip md ud hiso hres
    rw [hinstall] at hprov
    simp only [hc, if_pos, ne_eq, not_false_eq_true, if_true] at hprov
    have hpip := pipeline_reach_provision env nc cc lbl p md ud ip ftr name
      hp hmd hud hf hsel
    rw [hprov] at hpip
    simp only [hc, ne_eq, not_false_eq_true, if_true] at hpip
    rw [hpip]
    simp

/-- C5: readiness timeout.  For any run that reaches the second boot
(hypotheses as in C2) in which the guest never reports "up" within the
60-second readiness wait, `install_cloudinit` returns the non-zero
readiness-timeout error 1, its trace contains no remote (install-script)
command and no force-kill, and the pipeline aborts right after the
install-failure log - no finalize events follow.  (The only `guestKill` in
the pipeline trace is the pre-boot "ensure the guest is not running" kill
at the start of provisioning, before any boot.) -/
theorem C5_readiness_timeout (env : Env) (nc : NuageConf) (cc : CloudConf)
    (lbl p md ud ip : String) (ftr : List Event) (name t : String)
    (hp : nc.path = some p) (hmd : nc.metadata_path = some md)
    (hud : nc.userdata_path = some ud)
    (hf : fetchImage env nc p = (0, ip, ftr))
    (hsel : selectGuest env.guests (some lbl) = .found name)
    (hiso : env.runLocalRes (mkisofsCmd (seedImgPath (env.guestPathOf name))
      (guestUserPath (env.guestPathOf name)) (guestMetaPath (env.guestPathOf name))) = 0)
    (hres : env.runLocalRes (qemuResizeCmd (env.bootImgOf name)) = 0)
    (ht : env.freebsd_transport = some t)
    (h1 : env.startRes false (["-cdrom", seedImgPath (env.guestPathOf name)] ++ ["-no-reboot"]) = 0)
    (h2 : env.waitTermRes 0 = true)
    (h3 : env.startRes true ["-cdrom", seedImgPath (env.guestPathOf name)] = 0)
    (h4 : env.isUpRes = false) :
    install_cloudinit env ⟨env.guestPathOf name, env.bootImgOf name⟩
        ["-cdrom", seedImgPath (env.guestPathOf name)] =
      (1, installHead ["-cdrom", seedImgPath (env.guestPathOf name)] ++
          [Event.logError "Guest is not up after 60 seconds"]) ∧
    (installHead ["-cdrom", seedImgPath (env.guestPathOf name)] ++
       [Event.logError "Guest is not up after 60 seconds"]).filter Event.isRemote = [] ∧
    (installHead ["-cdrom", seedImgPath (env.guestPathOf name)] ++
       [Event.logError "Guest is not up after 60 seconds"]).filter Event.isKill = [] ∧
    cloudimage_from_nuageimage env ⟨some nc, some cc, some lbl⟩ =
      (.ok 1,
       ftr ++ provisionHead env name ip md ud ++
         (installHead ["-cdrom", seedImgPath (env.guestPathOf name)] ++
            [Event.logError "Guest is not up after 60 seconds"]) ++
         [Event.logError "Could not install cloud-init"]) := by
  have hinstall : install_cloudinit env ⟨env.guestPathOf name, env.bootImgOf name⟩
      ["-cdrom", seedImgPath (env.guestPathOf name)] =
      (1, installHead ["-cdrom", seedImgPath (env.guestPathOf name)] ++
          [Event.logError "Guest is not up after 60 seconds"]) := by
    have h1' : env.startRes false ["-cdrom", seedImgPath (env.guestPathOf name), "-no-reboot"] = 0 := by
      simpa using h1
    simp [install_cloudinit, ht, h1', h2, h3, h4, installHead]
  refine ⟨hinstall, ?_, ?_, ?_⟩
  · simp [installHead, Event.isRemote]
  · simp [installHead, Event.isKill]
  · have hprov := provision_reach_install env name ip md ud hiso hres
    rw [hinstall] at hprov
    simp only [ne_eq, one_ne_zero, not_false_eq_true, if_true] at hprov
    have hpip := pipeline_reach_provision env nc cc lbl p md ud ip ftr name
      hp hmd hud hf hsel
    rw [hprov] at hpip
    simp only [ne_eq, one_ne_zero, not_false_eq_true, if_true] at hpip
    rw [hpip]
    simp

/-- C2 witness: with the second install-script command failing (error 7) on
an otherwise healthy environment, the pipeline returns that error. -/
theorem C2_witness :
    (cloudimage_from_nuageimage envC2
      ⟨some sampleNuage, some ⟨some "/out/cloud.qcow2"⟩, some "freebsd14"⟩).1 =
      PyResult.ok 7 := by
  rw [(C2_install_failure_cleanup envC2 sampleNuage ⟨some "/out/cloud.qcow2"⟩
    "freebsd14" "/cache/base.qcow2" "/conf/meta-data" "/conf/user-data"
    "/cache/base.qcow2" [] "fbsd14" "default_freebsd"
    ["su -m root -c \x27pkg install -y $(pkg search -q cloud-init | head -n1)\x27"]
    ["su -m root -c \x27poweroff\x27"]
    "su -m root -c \x27sysrc cloudinit_enable=YES\x27"
    rfl rfl rfl rfl rfl rfl rfl rfl rfl rfl rfl rfl rfl
    (by decide) (by decide)).2.2.2]
  rfl

/-- C5 witness: with a guest that never reports "up" on an otherwise
healthy environment, the pipeline returns the readiness-timeout error 1. -/
theorem C5_witness :
    (cloudimage_from_nuageimage envC5
      ⟨some sampleNuage, some ⟨some "/out/cloud.qcow2"⟩, some "freebsd14"⟩).1 =
      PyResult.ok 1 := by
  rw [(C5_readiness_timeout envC5 sampleNuage ⟨some "/out/cloud.qcow2"⟩
    "freebsd14" "/cache/base.qcow2" "/conf/meta-data" "/conf/user-data"
    "/cache/base.qcow2" [] "fbsd14" "default_freebsd"
    rfl rfl rfl rfl rfl rfl rfl rfl rfl rfl rfl rfl).2.2.2]

/-- C3: stage order in successful runs.  Every run of the pipeline that
returns 0 has a trace of exactly this shape: a fetch segment containing
only fetch events (no guest events), then exactly one guest selection
(one `guestCreate`), the seed volume built exactly once (the single mkisofs
call inside `provisionHead`) before the first guest boot, the primary disk
resized exactly once (the single `qemu-img resize` call inside
`provisionHead`) before any boot phase, then the two-phase boot and the
three install commands, and the finalize events (copy to destination and
checksum) strictly after the install sequence has succeeded. -/
theorem C3_success_stage_order (env : Env) (image : ImageConf) (tr : List Event)
    (h : cloudimage_from_nuageimage env image = (.ok 0, tr)) :
    ∃ nc cc lbl name p md ud ip cp ftr,
      image.nuage = some nc ∧ image.cloud = some cc ∧ image.system_label = some lbl ∧
      nc.path = some p ∧ nc.metadata_path = some md ∧ nc.userdata_path = some ud ∧
      cc.path = some cp ∧
      selectGuest env.guests (some lbl) = .found name ∧
      (∀ e ∈ ftr, e.isFetch = true) ∧
      tr = ftr ++ provisionHead env name ip md ud ++
        installHead ["-cdrom", seedImgPath (env.guestPathOf name)] ++
        installCmds.map (fun d => Event.runRemote d "default_freebsd") ++
        [Event.waitForTermination 60] ++
        [Event.mkdirParent cp,
         Event.runLocal (cpCmd (env.bootImgOf name) cp),
         Event.runLocal (shaCmd cp),
         Event.runLocal ("ls -la " ++ cp),
         Event.runLocal ("cat " ++ cp ++ ".sha256")] := by
  unfold cloudimage_from_nuageimage at h
  rcases hnc : image.nuage with _ | nc <;> rw [hnc] at h
  · have hx := congrArg Prod.fst h
    simp [EINVAL] at hx
  dsimp only at h
  rcases hpth : nc.path with _ | p <;> rw [hpth] at h
  · have hx := congrArg Prod.fst h
    simp at hx
  dsimp only at h
  rcases hmd : nc.metadata_path with _ | md <;> rw [hmd] at h
  · have hx := congrArg Prod.fst h
    simp at hx
  dsimp only at h
  rcases hud : nc.userdata_path with _ | ud <;> rw [hud] at h
  · have hx := congrArg Prod.fst h
    simp at hx
  dsimp only at h
  rcases hcl : image.cloud with _ | cc <;> rw [hcl] at h
  · have hx := congrArg Prod.fst h
    simp [EINVAL] at hx
  dsimp only at h
  rcases hfe : fetchImage env nc p with ⟨fe, fp, ftr⟩
  rw [hfe] at h
  dsimp only at h
  by_cases hf0 : fe ≠ 0
  · rw [if_pos hf0] at h
    have hx := congrArg Prod.fst h
    simp at hx
    exact absurd hx hf0
  rw [if_neg hf0] at h
  rcases hsl : image.system_label with _ | lbl <;> rw [hsl] at h
  · have hnn : ((none : Option String) = none) := rfl
    rw [if_pos hnn] at h
    rcases hsg : selectGuest env.guests none with n | n | _
    · exact absurd hsg (selectGuest_none_ne_found env.guests n)
    · rw [hsg] at h
      have hx := congrArg Prod.fst h
      simp [EINVAL] at hx
    · rw [hsg] at h
      have hx := congrArg Prod.fst h
      simp [EINVAL] at hx
  rw [if_neg (show ¬((some lbl : Option String) = none) by simp)] at h
  rcases hsg : selectGuest env.guests (some lbl) with n | n | _
  rotate_left
  · rw [hsg] at h
    have hx := congrArg Prod.fst h
    simp [EINVAL] at hx
  · rw [hsg] at h
    have hx := congrArg Prod.fst h
    simp [EINVAL] at hx
  rw [hsg] at h
  dsimp only at h
  rcases hpr : provisionStage env n fp md ud with ⟨pe, ptr⟩
  rw [hpr] at h
  dsimp only at h
  by_cases hp0 : pe ≠ 0
  · rw [if_pos hp0] at h
    have hx := congrArg Prod.fst h
    simp at hx
    exact absurd hx hp0
  rw [if_neg hp0] at h
  rcases hfin : finalizeStage env cc (env.bootImgOf n) with ⟨fr, fintr⟩
  rw [hfin] at h
  dsimp only at h
  have hfr : fr = .ok 0 := by
    have hx := congrArg Prod.fst h
    simpa using hx
  have htr : tr = ftr ++ [] ++ ptr ++ fintr := by
    have hx := congrArg Prod.snd h
    simpa using hx.symm
  have hpe : pe = 0 := by simpa using hp0
  rw [hpe] at hpr
  obtain ⟨itr, hins, hptr⟩ := provision_ok_inv env n fp md ud ptr hpr
  have hitr := install_ok_inv env ⟨env.guestPathOf n, env.bootImgOf n⟩
    ["-cdrom", seedImgPath (env.guestPathOf n)] itr hins
  rw [hfr] at hfin
  obtain ⟨cp, hcp, hfintr⟩ := finalize_ok_inv env cc (env.bootImgOf n) fintr hfin
  have hfetch : ∀ e ∈ ftr, e.isFetch = true := by
    intro e he
    have := fetchImage_isFetch env nc p e
    rw [hfe] at this
    exact this he
  refine ⟨nc, cc, lbl, n, p, md, ud, fp, cp, ftr,
    rfl, rfl, rfl, hpth, hmd, hud, hcp, hsg, hfetch, ?_⟩
  rw [htr, hptr, hitr, hfintr]
  simp

/-- C3 witness: the successful sample run has exactly the stage-ordered
trace. -/
theorem C3_witness :
    ∃ nc cc lbl name p md ud ip cp ftr,
      sampleImage.nuage = some nc ∧ sampleImage.cloud = some cc ∧
      sampleImage.system_label = some lbl ∧
      nc.path = some p ∧ nc.metadata_path = some md ∧ nc.userdata_path = some ud ∧
      cc.path = some cp ∧
      selectGuest sampleEnv.guests (some lbl) = .found name ∧
      (∀ e ∈ ftr, e.isFetch = true) ∧
      sampleSuccessTrace = ftr ++ provisionHead sampleEnv name ip md ud ++
        installHead ["-cdrom", seedImgPath (sampleEnv.guestPathOf name)] ++
        installCmds.map (fun d => Event.runRemote d "default_freebsd") ++
        [Event.waitForTermination 60] ++
        [Event.mkdirParent cp,
         Event.runLocal (cpCmd (sampleEnv.bootImgOf name) cp),
         Event.runLocal (shaCmd cp),
         Event.runLocal ("ls -la " ++ cp),
         Event.runLocal ("cat " ++ cp ++ ".sha256")] :=
  C3_success_stage_order sampleEnv sampleImage sampleSuccessTrace rfl

end BsdImages
